import Mathlib

/-!
Shallow embedding of the intent-driven retrieval router of the PartSelect
RAG backend (`backend/agents/optimized_rag_agent.py`).  Python strings are
modelled as `List Char` (ASCII behaviour of `str.lower`, `\w`, `[A-Z]`,
`\d`); Python dict-shaped records become structures of `Option` fields
(`d.get(k, default)` becomes `Option.getD`); fallible store calls return
`Except Err`; the agent's external collaborators (LLM classifier, read
database, vector store, generator) are stub function records quantified
over in the theorems.
-/

namespace PartSelect

abbrev Str := List Char

abbrev Err := Str

/-- ASCII model of the Python regex word-character class `\w`. -/
def isWordChar (c : Char) : Bool := c.isAlphanum || c == '_'

/-- Model of `str.lower()` (ASCII). -/
def lowerStr (s : Str) : Str := s.map Char.toLower

/-- Whether `needle` is a prefix of `hay`. -/
def strStartsWith : Str → Str → Bool
  | [], _ => true
  | _ :: _, [] => false
  | a :: as, b :: bs => a == b && strStartsWith as bs

/-- Python substring containment `needle in hay`. -/
def isSubstr (needle : Str) : Str → Bool
  | [] => needle.isEmpty
  | h :: t => strStartsWith needle (h :: t) || isSubstr needle t

/-- Model of `any(word in text for word in words)` (substring containment). -/
def containsAny (text : Str) (words : List Str) : Bool :=
  words.any (fun w => isSubstr w text)

/-- Maximal prefix of decimal digits, with the rest (greedy `\d*`). -/
def splitDigits : Str → Str × Str
  | [] => ([], [])
  | c :: cs =>
    if c.isDigit then
      let p := splitDigits cs
      (c :: p.1, p.2)
    else ([], c :: cs)

/-- Maximal prefix of ASCII uppercase letters, with the rest (greedy `[A-Z]*`). -/
def splitUppers : Str → Str × Str
  | [] => ([], [])
  | c :: cs =>
    if c.isUpper then
      let p := splitUppers cs
      (c :: p.1, p.2)
    else ([], c :: cs)

/-- A `\b` word boundary holds between the end of a word-character match and
the given rest of the string. -/
def boundaryAfter : Str → Bool
  | [] => true
  | c :: _ => !(isWordChar c)

/-- Match `PS\d+\b` at the head of the string (greedy digits; only the
maximal digit run can satisfy the trailing boundary). -/
def altPS : Str → Option (Str × Str)
  | 'P' :: 'S' :: r =>
    let p := splitDigits r
    if p.1.isEmpty then none
    else if boundaryAfter p.2 then some ('P' :: 'S' :: p.1, p.2) else none
  | _ => none

/-- Match `[A-Z]{2}\d+\b` at the head of the string. -/
def altUU : Str → Option (Str × Str)
  | a :: b :: r =>
    if a.isUpper && b.isUpper then
      let p := splitDigits r
      if p.1.isEmpty then none
      else if boundaryAfter p.2 then some (a :: b :: p.1, p.2) else none
    else none
  | _ => none

/-- Match `W\d+\b` at the head of the string. -/
def altW : Str → Option (Str × Str)
  | 'W' :: r =>
    let p := splitDigits r
    if p.1.isEmpty then none
    else if boundaryAfter p.2 then some ('W' :: p.1, p.2) else none
  | _ => none

/-- Match `[A-Z]\d+[A-Z]+\d*\b` at the head of the string (each greedy run
is forced: shorter backtracks hit a word character at the boundary). -/
def altMixed : Str → Option (Str × Str)
  | a :: r =>
    if a.isUpper then
      let p1 := splitDigits r
      if p1.1.isEmpty then none
      else
        let p2 := splitUppers p1.2
        if p2.1.isEmpty then none
        else
          let p3 := splitDigits p2.2
          if boundaryAfter p3.2 then some (a :: (p1.1 ++ p2.1 ++ p3.1), p3.2) else none
    else none
  | _ => none

/-- Alternation of `re.findall(r'\b(?:PS\d+|[A-Z]{2}\d+|W\d+|[A-Z]\d+[A-Z]+\d*)\b', ...)`,
alternatives tried in the Python order at one start position. -/
def tryPartNumAt (s : Str) : Option (Str × Str) :=
  altPS s <|> altUU s <|> altW s <|> altMixed s

/-- Match `[A-Z]{2,}\d+[A-Z]*\d*\b` at the head of the string, for
`re.findall(r'\b[A-Z]{2,}\d+[A-Z]*\d*\b', ...)`. -/
def tryModelNumAt (s : Str) : Option (Str × Str) :=
  let u1 := splitUppers s
  if u1.1.length < 2 then none
  else
    let d1 := splitDigits u1.2
    if d1.1.isEmpty then none
    else
      let u2 := splitUppers d1.2
      let d2 := splitDigits u2.2
      if boundaryAfter d2.2 then some (u1.1 ++ d1.1 ++ u2.1 ++ d2.1, d2.2) else none

/-- Left-to-right non-overlapping scan of `re.findall` for a pattern that
starts with `\b` then a word character: a match may only start where the
previous character is not a word character.  Fuel is the remaining string
length; every step consumes at least one character. -/
def findallB (tryAt : Str → Option (Str × Str)) : Nat → Bool → Str → List Str
  | 0, _, _ => []
  | _ + 1, _, [] => []
  | fuel + 1, prevWord, c :: cs =>
    if prevWord then findallB tryAt fuel (isWordChar c) cs
    else
      match tryAt (c :: cs) with
      | some (m, rest) => m :: findallB tryAt fuel true rest
      | none => findallB tryAt fuel (isWordChar c) cs

/-- Existence of a match (`re.search`) for a `\b`-anchored pattern. -/
def searchB (tryAt : Str → Option (Str × Str)) : Bool → Str → Bool
  | _, [] => false
  | prevWord, c :: cs =>
    (if prevWord then false else (tryAt (c :: cs)).isSome) || searchB tryAt (isWordChar c) cs

/-- Model of `re.search(r'\b[A-Z]{2}\d+\b|\bPS\d+\b', query)` used by the
rule-based classifier (line 282 of the source). -/
def re_search_part_number (q : Str) : Bool :=
  searchB (fun s => altUU s <|> altPS s) false q

/-- Model of `re.findall(r'\b(?:PS\d+|[A-Z]{2}\d+|W\d+|[A-Z]\d+[A-Z]+\d*)\b', query)`. -/
def find_part_numbers (q : Str) : List Str :=
  findallB tryPartNumAt q.length false q

/-- Model of `re.findall(r'\b[A-Z]{2,}\d+[A-Z]*\d*\b', query)`. -/
def find_model_numbers (q : Str) : List Str :=
  findallB tryModelNumAt q.length false q

/-- Model of `re.match(r'PS\d+', term)`: anchored at the start, a trailing
remainder after the digits is allowed. -/
def re_match_PSdigits : Str → Bool
  | 'P' :: 'S' :: c :: _ => c.isDigit
  | _ => false

/-- Model of `re.match(r'[A-Z]{2,}\d+', term)`: at least two leading
uppercase letters immediately followed by a digit. -/
def re_match_model_anchor (t : Str) : Bool :=
  let u := splitUppers t
  decide (2 ≤ u.1.length) &&
    (match u.2 with
     | c :: _ => c.isDigit
     | [] => false)

/-- Query intents; the JSON strings of the source mapped onto a closed
enumeration (the five values of the data model). -/
inductive Intent
  | specific_part
  | compatibility
  | troubleshooting
  | educational
  | part_search
deriving DecidableEq

/-- Appliance types recognised by the classifier. -/
inductive Appliance
  | refrigerator
  | dishwasher
deriving DecidableEq

def applianceStr : Appliance → Str
  | .refrigerator => "refrigerator".data
  | .dishwasher => "dishwasher".data

def apos : Char := Char.ofNat 39

def wordsSpecific : List Str := [ "part number".data, "ps".data, "model".data ]

def wordsCompat : List Str :=
  [ "compatible".data, "compatibility".data, "model".data, "work with".data ]

def wontWork : Str := "won".data ++ [ apos ] ++ "t work".data

def doesntWork : Str := "doesn".data ++ [ apos ] ++ "t work".data

def wordsTrouble : List Str :=
  [ "not working".data, "not making".data, "broken".data, "leaking".data,
    "problem".data, "issue".data, "troubleshoot".data, "repair".data,
    "fix".data, wontWork, doesntWork, "stopped working".data ]

def wordsEducational : List Str :=
  [ "how to".data, "install".data, "replace".data, "maintenance".data, "clean".data ]

def partTypeWords : List Str :=
  [ "filter".data, "seal".data, "door".data, "pump".data, "motor".data,
    "valve".data, "hose".data, "gasket".data, "dispenser".data, "ice maker".data ]

def brandWords : List Str :=
  [ "whirlpool".data, "ge".data, "frigidaire".data, "kenmore".data,
    "samsung".data, "lg".data, "maytag".data, "bosch".data ]

/-- Output of classification (the `QueryAnalysis` of the spec; a dict in the
source, with key `type` modelled as field `qtype`). -/
structure QueryInfo where
  qtype : Intent
  appliance_type : Option Appliance
  key_terms : List Str
  original_query : Str
  confidence : Option ℚ
  search_strategy : Option Str

/-- Model of `OptimizedRAGAgent._rule_based_analyze_query`.  Python's
`list(set(key_terms))` removes duplicates with unspecified order; we keep
first occurrences (`List.dedup`). -/
def rule_based_analyze_query (q : Str) : QueryInfo :=
  let ql := lowerStr q
  let qt : Intent :=
    if containsAny ql wordsSpecific && re_search_part_number q then .specific_part
    else if containsAny ql wordsCompat then .compatibility
    else if containsAny ql wordsTrouble then .troubleshooting
    else if containsAny ql wordsEducational then .educational
    else .part_search
  let appliance : Option Appliance :=
    if isSubstr ( "refrigerator".data ) ql || isSubstr ( "fridge".data ) ql then
      some .refrigerator
    else if isSubstr ( "dishwasher".data ) ql then some .dishwasher
    else none
  let pns := find_part_numbers q
  let mns := find_model_numbers q
  let pts := partTypeWords.filter (fun w => isSubstr w ql)
  let brs := brandWords.filter (fun w => isSubstr w ql)
  { qtype := qt
    appliance_type := appliance
    key_terms := List.dedup (pns ++ mns ++ pts ++ brs)
    original_query := q
    confidence := some ((4 : ℚ) / 5)
    search_strategy := some ( "rule_based".data ) }

/-- A part record: the dict keys read by the agent, as optional fields. -/
structure PartRec where
  part_number : Option Str
  name : Option Str
  price : Option Str
  brand : Option Str
  category : Option Str
  in_stock : Option Str
  availability : Option Str
  product_url : Option Str
  video_url : Option Str
  install_video_url : Option Str
  installation_difficulty : Option Str
  installation_time : Option Str
  description : Option Str
deriving DecidableEq

/-- A repair-guide record: the dict keys read by the agent. -/
structure RepairRec where
  appliance_type : Option Str
  symptom : Option Str
  description : Option Str
  difficulty : Option Str
  parts_needed : Option Str
  repair_video_url : Option Str
  symptom_detail_url : Option Str
deriving DecidableEq

/-- A blog-article record: the dict keys read by the agent. -/
structure BlogRec where
  title : Option Str
  url : Option Str
  author : Option Str
  excerpt : Option Str
deriving DecidableEq

/-- Filters dict passed to `search_parts` (only `brand` and `category` are
ever set by this agent). -/
structure Filters where
  brand : Option Str
  category : Option Str
deriving DecidableEq

/-- Stub of the read-optimized structured store (`PartSelectDatabase`); each
call may raise, modelled by `Except Err`. -/
structure ReadDB where
  get_part_by_number : Str → Except Err (Option PartRec)
  search_compatible_parts : Str → Option Appliance → Except Err (List PartRec)
  search_repairs : Str → Option Appliance → Nat → Except Err (List RepairRec)
  search_parts : Str → Nat → Filters → Except Err (List PartRec)
  search_blogs : Str → Nat → Except Err (List BlogRec)

/-- One structured-store call issued by `_fetch_primary_data` (instrumentation
of the fetch, recording calls in issue order). -/
inductive StoreCall
  | getPart (term : Str)
  | searchCompatible (term : Str) (a : Option Appliance)
  | searchRepairs (q : Str) (a : Option Appliance) (limit : Nat)
  | searchParts (q : Str) (limit : Nat) (f : Filters)
  | searchBlogs (q : Str) (limit : Nat)
deriving DecidableEq

/-- The primary `RetrievalBundle` (`{"parts": [], "repairs": [], "blogs": []}`). -/
structure PrimaryData where
  parts : List PartRec
  repairs : List RepairRec
  blogs : List BlogRec
deriving DecidableEq

/-- The `specific_part` / `educational` point-lookup loop: for each key term
matching `re.match(r'PS\d+', term)` call `get_part_by_number` and append a
found record.  A raising call aborts the loop (Python's surrounding
`try`/`except` keeps what was appended before the exception). -/
def lookupLoop (db : ReadDB) : List Str → List PartRec × List StoreCall
  | [] => ([], [])
  | t :: ts =>
    if re_match_PSdigits t then
      match db.get_part_by_number t with
      | .error _ => ([], [ StoreCall.getPart t ])
      | .ok none =>
        let r := lookupLoop db ts
        (r.1, StoreCall.getPart t :: r.2)
      | .ok (some p) =>
        let r := lookupLoop db ts
        (p :: r.1, StoreCall.getPart t :: r.2)
    else lookupLoop db ts

/-- The `compatibility` loop: for each key term matching
`re.match(r'[A-Z]{2,}\d+', term)` extend with `search_compatible_parts`;
a raising call aborts the loop keeping earlier extensions. -/
def compatLoop (db : ReadDB) (a : Option Appliance) : List Str → List PartRec × List StoreCall
  | [] => ([], [])
  | t :: ts =>
    if re_match_model_anchor t then
      match db.search_compatible_parts t a with
      | .error _ => ([], [ StoreCall.searchCompatible t a ])
      | .ok ps =>
        let r := compatLoop db a ts
        (ps ++ r.1, StoreCall.searchCompatible t a :: r.2)
    else compatLoop db a ts

def joinSpace (ts : List Str) : Str := List.intercalate ( " ".data ) ts

def categoryFilter : Option Appliance → Option Str
  | some a => some (applianceStr a)
  | none => none

/-- Model of Python `str.title()` (ASCII letters). -/
def pyTitleGo : Bool → Str → Str
  | _, [] => []
  | prevAlpha, c :: cs =>
    (if c.isAlpha then (if prevAlpha then c.toLower else c.toUpper) else c) ::
      pyTitleGo c.isAlpha cs

def pyTitle (s : Str) : Str := pyTitleGo false s

/-- Brand filter for the general part search: first key term whose lowering
is in the brand vocabulary wins, titled. -/
def firstBrand : List Str → Option Str
  | [] => none
  | t :: ts => if brandWords.contains (lowerStr t) then some (pyTitle t) else firstBrand ts

/-- Brand names skipped when building the troubleshooting search query
(list order follows line 346 of the source). -/
def skipBrands : List Str :=
  [ "ge".data, "whirlpool".data, "samsung".data, "lg".data,
    "frigidaire".data, "kenmore".data, "bosch".data, "maytag".data ]

/-- The search-query string built at the top of `_fetch_primary_data`:
troubleshooting joins the non-brand key terms (falling back to the
appliance name or "appliance"), every other intent joins all key terms
(falling back to the original query). -/
def primary_search_query (qi : QueryInfo) : Str :=
  if qi.qtype = Intent.troubleshooting then
    let ts := qi.key_terms.filter (fun t => !(skipBrands.contains (lowerStr t)))
    if ts.isEmpty then
      (match qi.appliance_type with
       | some a => applianceStr a
       | none => "appliance".data)
    else joinSpace ts
  else if qi.key_terms.isEmpty then qi.original_query else joinSpace qi.key_terms

/-- Model of `OptimizedRAGAgent._fetch_primary_data`, also returning the
list of structured-store calls issued, in order.  The whole body runs under
one `try`/`except` in the source: a raising call ends the strategy early and
the accumulated records are returned. -/
def fetch_primary_data (qi : QueryInfo) (db : ReadDB) : PrimaryData × List StoreCall :=
  let search_query : Str := primary_search_query qi
  if qi.qtype = Intent.specific_part ∧ qi.key_terms ≠ [] then
    let r := lookupLoop db qi.key_terms
    ({ parts := r.1, repairs := [], blogs := [] }, r.2)
  else if qi.qtype = Intent.compatibility ∧ qi.key_terms ≠ [] then
    let r := compatLoop db qi.appliance_type qi.key_terms
    ({ parts := r.1, repairs := [], blogs := [] }, r.2)
  else if qi.qtype = Intent.troubleshooting then
    match db.search_repairs search_query qi.appliance_type 5 with
    | .error _ =>
      ({ parts := [], repairs := [], blogs := [] },
       [ StoreCall.searchRepairs search_query qi.appliance_type 5 ])
    | .ok rs =>
      let f : Filters := { brand := none, category := categoryFilter qi.appliance_type }
      match db.search_parts search_query 5 f with
      | .error _ =>
        ({ parts := [], repairs := rs, blogs := [] },
         [ StoreCall.searchRepairs search_query qi.appliance_type 5,
           StoreCall.searchParts search_query 5 f ])
      | .ok ps =>
        ({ parts := ps, repairs := rs, blogs := [] },
         [ StoreCall.searchRepairs search_query qi.appliance_type 5,
           StoreCall.searchParts search_query 5 f ])
  else if qi.qtype = Intent.educational then
    match db.search_blogs search_query 3 with
    | .error _ =>
      ({ parts := [], repairs := [], blogs := [] },
       [ StoreCall.searchBlogs search_query 3 ])
    | .ok bs =>
      let r := lookupLoop db qi.key_terms
      ({ parts := r.1, repairs := [], blogs := bs }, StoreCall.searchBlogs search_query 3 :: r.2)
  else
    let f : Filters := { brand := firstBrand qi.key_terms, category := categoryFilter qi.appliance_type }
    match db.search_parts search_query 10 f with
    | .error _ =>
      ({ parts := [], repairs := [], blogs := [] },
       [ StoreCall.searchParts search_query 10 f ])
    | .ok ps =>
      ({ parts := ps, repairs := [], blogs := [] },
       [ StoreCall.searchParts search_query 10 f ])

/-- Result dict of a chroma collection query: parallel lists of documents
and metadata (one inner list per query text). -/
structure VecResults where
  documents : List (List Str)
  metadatas : List (List Str)
deriving DecidableEq

/-- A vector hit converted to the structured format (`content`, `metadata`,
`source="vector_db"`); `metadata := none` models the `{}` default. -/
structure CtxItem where
  content : Str
  metadata : Option Str
  source : Str
deriving DecidableEq

def vectorDbTag : Str := "vector_db".data

/-- The conversion loop when `metadatas` is truthy: `metadatas[0][i]` may
raise IndexError, aborting the loop (items appended so far are kept by the
surrounding `try`/`except`). -/
def convertWithMeta (metas0 : List Str) : Nat → List Str → List CtxItem
  | _, [] => []
  | i, d :: ds =>
    match metas0[i]? with
    | none => []
    | some m =>
      { content := d, metadata := some m, source := vectorDbTag } :: convertWithMeta metas0 (i + 1) ds

/-- The conversion loop when `metadatas` is falsy: metadata defaults to `{}`. -/
def convertNoMeta : List Str → List CtxItem
  | [] => []
  | d :: ds => { content := d, metadata := none, source := vectorDbTag } :: convertNoMeta ds

/-- Convert one collection's query result to structured items, mirroring the
`if results["documents"]: for i, doc in enumerate(results["documents"][0])`
loop. -/
def convertVecResults (res : VecResults) : List CtxItem :=
  match res.documents with
  | [] => []
  | docs0 :: _ =>
    match res.metadatas with
    | [] => convertNoMeta docs0
    | metas0 :: _ => convertWithMeta metas0 0 docs0

/-- Stub of the vector store's two collection query methods (query text and
`n_results`); each call may raise. -/
structure VectorDB where
  parts_query : Str → Nat → Except Err VecResults
  repairs_query : Str → Nat → Except Err VecResults

/-- One vector-store query issued by `_fetch_vector_context`. -/
inductive VecCall
  | parts (q : Str) (n : Nat)
  | repairs (q : Str) (n : Nat)
deriving DecidableEq

/-- The supplementary bundle (`additional_context`). -/
structure AdditionalContext where
  parts : List CtxItem
  repairs : List CtxItem
  blogs : List CtxItem
deriving DecidableEq

/-- Model of `OptimizedRAGAgent._fetch_vector_context`, also returning the
vector queries issued.  A raising query is logged as issued; its inner
`except` substitutes no items for that collection. -/
def fetch_vector_context (qi : QueryInfo) (pd : PrimaryData) (vdb : VectorDB) :
    AdditionalContext × List VecCall :=
  let total := pd.parts.length + pd.repairs.length + pd.blogs.length
  if total < 3 then
    let q := qi.original_query
    let pr : List CtxItem × List VecCall :=
      if qi.qtype = Intent.part_search ∨ qi.qtype = Intent.specific_part ∨
          qi.qtype = Intent.compatibility then
        match vdb.parts_query q 5 with
        | .error _ => ([], [ VecCall.parts q 5 ])
        | .ok res => (convertVecResults res, [ VecCall.parts q 5 ])
      else ([], [])
    let rr : List CtxItem × List VecCall :=
      if qi.qtype = Intent.troubleshooting ∨ qi.qtype = Intent.educational then
        match vdb.repairs_query q 3 with
        | .error _ => ([], [ VecCall.repairs q 3 ])
        | .ok res => (convertVecResults res, [ VecCall.repairs q 3 ])
      else ([], [])
    ({ parts := pr.1, repairs := rr.1, blogs := [] }, pr.2 ++ rr.2)
  else ({ parts := [], repairs := [], blogs := [] }, [])

/-- The combined data handed to generation (fields of `_combine_data`'s dict). -/
structure CombinedData where
  primary_parts : List PartRec
  primary_repairs : List RepairRec
  primary_blogs : List BlogRec
  additional_parts : List CtxItem
  additional_repairs : List CtxItem
  additional_blogs : List CtxItem
  all_sources : List Str
deriving DecidableEq

/-- Source-list line for a part. -/
def sourceLinePart (p : PartRec) : Str :=
  "Part: ".data ++ p.name.getD ( "Unknown".data ) ++ " (".data ++
    p.part_number.getD ( "N/A".data ) ++ ") - $".data ++ p.price.getD ( "N/A".data )

/-- Source-list line for a repair. -/
def sourceLineRepair (r : RepairRec) : Str :=
  "Repair: ".data ++ r.symptom.getD ( "Unknown".data ) ++ " - ".data ++
    r.appliance_type.getD ( "Unknown".data )

/-- Source-list line for a blog article. -/
def sourceLineBlog (b : BlogRec) : Str :=
  "Article: ".data ++ b.title.getD ( "Unknown".data )

/-- Model of `OptimizedRAGAgent._combine_data`. -/
def combine_data (pd : PrimaryData) (ac : AdditionalContext) : CombinedData :=
  { primary_parts := pd.parts
    primary_repairs := pd.repairs
    primary_blogs := pd.blogs
    additional_parts := ac.parts
    additional_repairs := ac.repairs
    additional_blogs := ac.blogs
    all_sources :=
      pd.parts.map sourceLinePart ++ pd.repairs.map sourceLineRepair ++
        pd.blogs.map sourceLineBlog }

/-- Python `x or default` for an optional string (`None` and `""` are falsy). -/
def pyOr (o : Option Str) (d : Str) : Str :=
  match o with
  | some s => if s.isEmpty then d else s
  | none => d

/-- Rendering of one primary part in the context string. -/
def renderPart (p : PartRec) : Str :=
  "\nPart Number: ".data ++ p.part_number.getD ( "N/A".data ) ++
  "\nName: ".data ++ p.name.getD ( "Unknown".data ) ++
  "\nPrice: $".data ++ p.price.getD ( "N/A".data ) ++
  "\nBrand: ".data ++ p.brand.getD ( "Unknown".data ) ++
  "\nCategory: ".data ++ p.category.getD ( "Unknown".data ) ++
  "\nIn Stock: ".data ++ p.in_stock.getD ( "Unknown".data ) ++
  "\nAvailability: ".data ++ p.availability.getD ( "Unknown".data ) ++
  "\nProduct URL: ".data ++ p.product_url.getD ( "Not available".data ) ++
  "\nInstallation Video: ".data ++ pyOr p.video_url (p.install_video_url.getD ( "Not available".data )) ++
  "\nInstallation Difficulty: ".data ++ p.installation_difficulty.getD ( "Not specified".data ) ++
  "\nInstallation Time: ".data ++ p.installation_time.getD ( "Not specified".data ) ++
  "\nDescription: ".data ++ (pyOr p.description ( "No description".data )).take 200 ++ "...\n".data

/-- Rendering of one primary repair guide in the context string. -/
def renderRepair (r : RepairRec) : Str :=
  "\nAppliance: ".data ++ r.appliance_type.getD ( "Unknown".data ) ++
  "\nSymptom: ".data ++ r.symptom.getD ( "Unknown".data ) ++
  "\nDescription: ".data ++ (pyOr r.description ( "No description".data )).take 200 ++ "...".data ++
  "\nDifficulty: ".data ++ r.difficulty.getD ( "Unknown".data ) ++
  "\nParts Needed: ".data ++ r.parts_needed.getD ( "Not specified".data ) ++
  "\nRepair Video: ".data ++ r.repair_video_url.getD ( "Not available".data ) ++
  "\nDetail URL: ".data ++ r.symptom_detail_url.getD ( "Not available".data ) ++ "\n".data

/-- Rendering of one primary blog article in the context string. -/
def renderBlog (b : BlogRec) : Str :=
  "\nTitle: ".data ++ b.title.getD ( "Unknown".data ) ++
  "\nURL: ".data ++ b.url.getD ( "Not available".data ) ++
  "\nAuthor: ".data ++ b.author.getD ( "Unknown".data ) ++
  "\nExcerpt: ".data ++ (b.excerpt.getD ( "No excerpt".data )).take 150 ++ "...\n".data

/-- Rendering of one supplementary (vector) item in the context string. -/
def renderAdditional (it : CtxItem) : Str :=
  "Additional Info: ".data ++ it.content.take 200 ++ "...".data

/-- Primary parts included in the generator context (`[:5]`). -/
def included_primary_parts (c : CombinedData) : List PartRec := c.primary_parts.take 5

/-- Primary repairs included in the generator context (`[:3]`). -/
def included_primary_repairs (c : CombinedData) : List RepairRec := c.primary_repairs.take 3

/-- Primary articles included in the generator context (`[:2]`). -/
def included_primary_blogs (c : CombinedData) : List BlogRec := c.primary_blogs.take 2

/-- Supplementary items included in the generator context: `[:2]` of the
additional parts, only when `len(primary_parts) + len(primary_repairs) < 2`. -/
def included_additional_parts (c : CombinedData) : List CtxItem :=
  if c.primary_parts.length + c.primary_repairs.length < 2 then c.additional_parts.take 2 else []

/-- The parts section of the context string. -/
def partsSection (c : CombinedData) : List Str :=
  if c.primary_parts.isEmpty then []
  else "=== PARTS FROM DATABASE ===".data :: (included_primary_parts c).map renderPart

/-- The repair-guides section of the context string. -/
def repairsSection (c : CombinedData) : List Str :=
  if c.primary_repairs.isEmpty then []
  else "\n=== REPAIR GUIDES ===".data :: (included_primary_repairs c).map renderRepair

/-- The articles section of the context string. -/
def blogsSection (c : CombinedData) : List Str :=
  if c.primary_blogs.isEmpty then []
  else "\n=== EDUCATIONAL ARTICLES ===".data :: (included_primary_blogs c).map renderBlog

/-- The additional-context section of the context string. -/
def additionalSection (c : CombinedData) : List Str :=
  if c.primary_parts.length + c.primary_repairs.length < 2 then
    if c.additional_parts.isEmpty then []
    else "\n=== ADDITIONAL CONTEXT ===".data :: (c.additional_parts.take 2).map renderAdditional
  else []

/-- Model of `OptimizedRAGAgent._build_context_string`. -/
def build_context_string (c : CombinedData) : Str :=
  let cps := partsSection c ++ repairsSection c ++ blogsSection c ++ additionalSection c
  if cps.isEmpty then "No relevant data found in database.".data
  else List.intercalate ( "\n".data ) cps

/-- A conversation message (role, content). -/
structure Msg where
  role : Str
  content : Str
deriving DecidableEq

/-- The raw JSON object returned by the LLM analyzer, before the field
validation of `_llm_analyze_query` (missing fields are `none`). -/
structure RawAnalysis where
  rtype : Option Intent
  rappliance : Option (Option Appliance)
  rkey_terms : Option (List Str)
  rconfidence : Option ℚ
  rsearch_strategy : Option Str

/-- Field validation of `_llm_analyze_query` (defaults for missing `type`,
`key_terms`, `appliance_type`; `original_query` set to the query). -/
def validateAnalysis (q : Str) (raw : RawAnalysis) : QueryInfo :=
  { qtype := raw.rtype.getD Intent.part_search
    appliance_type := raw.rappliance.getD none
    key_terms := raw.rkey_terms.getD []
    original_query := q
    confidence := raw.rconfidence
    search_strategy := raw.rsearch_strategy }

/-- Stubs for the agent's external collaborators: LLM analyzer, structured
store, vector store, and generator (`gen` gets the query, the built context
string, and the history; `.ok none` models an empty `choices` list). -/
structure Stubs where
  llm_analyze : Str → Except Err RawAnalysis
  db : ReadDB
  vdb : VectorDB
  gen : Str → Str → List Msg → Except Err (Option Str)

/-- Model of `OptimizedRAGAgent._analyze_query`: LLM path first, rule-based
fallback on any exception. -/
def analyze_query (st : Stubs) (q : Str) : QueryInfo :=
  match st.llm_analyze q with
  | .ok raw => validateAnalysis q raw
  | .error _ => rule_based_analyze_query q

def gen_fallback_msg : Str :=
  "I apologize, but I encountered an error generating a response. Please try again or contact customer service at 1-866-319-8402.".data

/-- Model of `OptimizedRAGAgent._generate_response`: a raising generator or
an empty `choices` list resolve to the fixed fallback string. -/
def generate_response (st : Stubs) (q : Str) (c : CombinedData) (hist : List Msg) : Str :=
  match st.gen q (build_context_string c) hist with
  | .ok (some s) => s
  | .ok none => gen_fallback_msg
  | .error _ => gen_fallback_msg

/-- The `data_sources` sub-dict of a successful response. -/
structure DataSources where
  primary_db_results : Nat
  vector_db_results : Nat
  total_sources : Nat
deriving DecidableEq

/-- The dict returned by `process_query`. -/
structure ResponseDict where
  success : Bool
  response : Str
  error : Option Err
  data_sources : Option DataSources
  query_type : Option Intent
  message : Str
deriving DecidableEq

def process_fallback_msg : Str :=
  "I apologize, but I encountered an error processing your request. Please try again or contact customer service at 1-866-319-8402.".data

/-- The body of `process_query`'s `try` block (steps 1-5).  Every step
absorbs its own failures, so the body always produces the success dict. -/
def process_query_body (st : Stubs) (q : Str) (hist : List Msg) : Except Err ResponseDict :=
  let qi := analyze_query st q
  let pd := (fetch_primary_data qi st.db).1
  let ac := (fetch_vector_context qi pd st.vdb).1
  let c := combine_data pd ac
  let resp := generate_response st q c hist
  Except.ok
    { success := true
      response := resp
      error := none
      data_sources := some
        { primary_db_results := pd.parts.length + pd.repairs.length
          vector_db_results := ac.parts.length + ac.repairs.length
          total_sources := c.all_sources.length }
      query_type := some qi.qtype
      message := "Query processed successfully".data }

/-- Model of `OptimizedRAGAgent.process_query`: the top-level `except`
converts any escaped exception into the fallback dict with an `error`
field; `Except.ok` in the result type means no exception reaches the caller. -/
def process_query (st : Stubs) (q : Str) (hist : List Msg) : Except Err ResponseDict :=
  match process_query_body st q hist with
  | .ok d => Except.ok d
  | .error e =>
    Except.ok
      { success := false
        response := process_fallback_msg
        error := some e
        data_sources := none
        query_type := none
        message := "Failed to process query".data }

/-- Steps 1-4 of `process_query`: the fused context (combined data) built for
a query, as a function of the stub state only. -/
def fused_of (st : Stubs) (q : Str) : CombinedData :=
  let qi := analyze_query st q
  let pd := (fetch_primary_data qi st.db).1
  let ac := (fetch_vector_context qi pd st.vdb).1
  combine_data pd ac

/-- Modelled from the spec (not from the source): the part-number pattern as
the claims state it — "optional `PS` prefix + digits, or two uppercase
letters + digits" — matched against a whole token. -/
def spec_part_number_shaped (t : Str) : Bool :=
  (match t with
   | 'P' :: 'S' :: r => !r.isEmpty && r.all Char.isDigit
   | _ => false) ||
  (!t.isEmpty && t.all Char.isDigit) ||
  (match t with
   | a :: b :: r => a.isUpper && b.isUpper && !r.isEmpty && r.all Char.isDigit
   | _ => false)

/-- Accumulator-based whitespace tokenizer (spec-side, for stating claims
about "tokens" of a query). -/
def tokensAux : Str → Str → List Str
  | cur, [] => if cur.isEmpty then [] else [ cur.reverse ]
  | cur, c :: cs =>
    if c == ' ' then
      if cur.isEmpty then tokensAux [] cs else cur.reverse :: tokensAux [] cs
    else tokensAux (c :: cur) cs

def whitespaceTokens (s : Str) : List Str := tokensAux [] s

/-- The single vector query the gate issues for a given intent: parts
collection (top 5) for part_search / specific_part / compatibility, repairs
collection (top 3) for troubleshooting / educational. -/
def gate_expected_call (qi : QueryInfo) : VecCall :=
  match qi.qtype with
  | .troubleshooting => VecCall.repairs qi.original_query 3
  | .educational => VecCall.repairs qi.original_query 3
  | _ => VecCall.parts qi.original_query 5

/-- The part a non-raising point lookup found, if any. -/
def okJoin (x : Except Err (Option PartRec)) : Option PartRec :=
  match x with
  | .ok p => p
  | .error _ => none

/-- A part record with every field absent. -/
def partA : PartRec :=
  ⟨none, none, none, none, none, none, none, none, none, none, none, none, none⟩

/-- A blog record with every field absent. -/
def blogA : BlogRec := ⟨none, none, none, none⟩

/-- A minimal supplementary item. -/
def ctxA : CtxItem := { content := "x".data, metadata := none, source := vectorDbTag }

/-- A structured-store stub whose calls all succeed with empty results. -/
def trivial_db : ReadDB :=
  { get_part_by_number := fun _ => .ok none
    search_compatible_parts := fun _ _ => .ok []
    search_repairs := fun _ _ _ => .ok []
    search_parts := fun _ _ _ => .ok []
    search_blogs := fun _ _ => .ok [] }

/-- A vector-store stub whose queries succeed with empty results. -/
def trivial_vdb : VectorDB :=
  { parts_query := fun _ _ => .ok { documents := [], metadatas := [] }
    repairs_query := fun _ _ => .ok { documents := [], metadatas := [] } }

/-- Stubs whose LLM analyzer raises (a classifier-service timeout), all
stores succeed empty, and the generator succeeds. -/
def failing_llm_stubs : Stubs :=
  { llm_analyze := fun _ => .error ( "timeout".data )
    db := trivial_db
    vdb := trivial_vdb
    gen := fun _ _ _ => .ok (some ( "ok".data )) }

/-- Stubs equal to `failing_llm_stubs` except for the generator. -/
def alt_gen_stubs : Stubs :=
  { llm_analyze := fun _ => .error ( "timeout".data )
    db := trivial_db
    vdb := trivial_vdb
    gen := fun _ _ _ => .ok none }

/-- QueryAnalysis with intent `specific_part` and the single key term
`WP123` (two uppercase letters + digits: part-number-shaped per the claim,
but not matched by the code's `re.match(r'PS\d+', ...)`). -/
def qiEx3 : QueryInfo :=
  { qtype := .specific_part
    appliance_type := none
    key_terms := [ "WP123".data ]
    original_query := "need part number WP123".data
    confidence := some ((4 : ℚ) / 5)
    search_strategy := some ( "rule_based".data ) }

/-- QueryAnalysis with intent `specific_part`, one qualifying and one
non-qualifying key term. -/
def qiW3 : QueryInfo :=
  { qtype := .specific_part
    appliance_type := none
    key_terms := [ "PS1".data, "xx".data ]
    original_query := "PS1".data
    confidence := some ((4 : ℚ) / 5)
    search_strategy := some ( "rule_based".data ) }

/-- Combined data with two primary articles (truncated primary total 2),
no primary parts or repairs, and one supplementary part available. -/
def cEx5 : CombinedData :=
  { primary_parts := []
    primary_repairs := []
    primary_blogs := [ blogA, blogA ]
    additional_parts := [ ctxA ]
    additional_repairs := []
    additional_blogs := []
    all_sources := [] }

/-- Combined data with nothing primary and one supplementary part. -/
def cW5 : CombinedData :=
  { primary_parts := []
    primary_repairs := []
    primary_blogs := []
    additional_parts := [ ctxA ]
    additional_repairs := []
    additional_blogs := []
    all_sources := [] }

/-- QueryAnalysis with intent `specific_part` and key terms `PS1`, `PS2`. -/
def qiEx7 : QueryInfo :=
  { qtype := .specific_part
    appliance_type := none
    key_terms := [ "PS1".data, "PS2".data ]
    original_query := "PS1 PS2".data
    confidence := some ((4 : ℚ) / 5)
    search_strategy := some ( "rule_based".data ) }

/-- A store stub whose point lookup succeeds on `PS1` and raises on every
other part number. -/
def dbEx7 : ReadDB :=
  { get_part_by_number := fun t => if t = "PS1".data then .ok (some partA) else .error ( "boom".data )
    search_compatible_parts := fun _ _ => .ok []
    search_repairs := fun _ _ _ => .ok []
    search_parts := fun _ _ _ => .ok []
    search_blogs := fun _ _ => .ok [] }

/-- The list a non-raising compatibility search returned, if any. -/
def okList (x : Except Err (List PartRec)) : List PartRec :=
  match x with
  | .ok l => l
  | .error _ => []

/-- A structured-store stub whose every call raises. -/
def dbBoom : ReadDB :=
  { get_part_by_number := fun _ => .error ( "boom".data )
    search_compatible_parts := fun _ _ => .error ( "boom".data )
    search_repairs := fun _ _ _ => .error ( "boom".data )
    search_parts := fun _ _ _ => .error ( "boom".data )
    search_blogs := fun _ _ => .error ( "boom".data ) }

/-- A vector-store stub whose every query raises. -/
def vdbBoom : VectorDB :=
  { parts_query := fun _ _ => .error ( "vboom".data )
    repairs_query := fun _ _ => .error ( "vboom".data ) }

/-- Stubs where the classifier and every store call raise, but the
generator succeeds. -/
def raising_stubs : Stubs :=
  { llm_analyze := fun _ => .error ( "timeout".data )
    db := dbBoom
    vdb := vdbBoom
    gen := fun _ _ _ => .ok (some ( "ok".data )) }

/-- C1: the supplementary (vector-store) fetch issues a query if and only if
the primary bundle's total item count (parts + repairs + articles) is
strictly less than 3; when it does, it issues exactly one query — against
the parts collection for intents part_search / specific_part /
compatibility, against the repairs collection for troubleshooting /
educational. -/
theorem supplementary_gate_iff (qi : QueryInfo) (pd : PrimaryData) (vdb : VectorDB) :
    (fetch_vector_context qi pd vdb).2 =
      (if pd.parts.length + pd.repairs.length + pd.blogs.length < 3 then
        [ gate_expected_call qi ] else []) := by
  rcases qi with ⟨qt, ap, kt, oq, cf, ss⟩
  by_cases h : pd.parts.length + pd.repairs.length + pd.blogs.length < 3
  · rw [if_pos h]
    cases qt <;>
      simp only [fetch_vector_context, gate_expected_call, if_pos h] <;>
      cases hv : vdb.parts_query oq 5 <;>
      cases hw : vdb.repairs_query oq 3 <;>
      simp [hv, hw]
  · rw [if_neg h]
    simp [fetch_vector_context, if_neg h]

/-- C2: the context handed to the generator includes at most 5 primary
parts, 3 primary repairs, 2 primary articles and 2 supplementary items in
total, and every included group is the initial segment (first N) of its
source list. -/
theorem fusion_caps (c : CombinedData) :
    (included_primary_parts c).length ≤ 5 ∧
    included_primary_parts c = c.primary_parts.take 5 ∧
    (included_primary_repairs c).length ≤ 3 ∧
    included_primary_repairs c = c.primary_repairs.take 3 ∧
    (included_primary_blogs c).length ≤ 2 ∧
    included_primary_blogs c = c.primary_blogs.take 2 ∧
    (included_additional_parts c).length ≤ 2 ∧
    (included_additional_parts c = c.additional_parts.take 2 ∨
      included_additional_parts c = []) := by
  refine ⟨?_, rfl, ?_, rfl, ?_, rfl, ?_, ?_⟩
  · simp [included_primary_parts, List.length_take]
  · simp [included_primary_repairs, List.length_take]
  · simp [included_primary_blogs, List.length_take]
  · unfold included_additional_parts
    split
    · simp [List.length_take]
    · simp
  · unfold included_additional_parts
    split
    · exact Or.inl rfl
    · exact Or.inr rfl

/-- C6: process_query never propagates an exception: for all stub behaviors
it returns a dict, either the success dict or the fixed fallback dict with
an error field; and when the LLM classifier raises, the result is the
success dict whose query type comes from the rule-based fallback path. -/
theorem process_query_total (st : Stubs) (q : Str) (hist : List Msg) :
    (∃ d, process_query st q hist = Except.ok d ∧
      (d.success = true ∨ (d.response = process_fallback_msg ∧ d.error ≠ none))) ∧
    (∀ e, st.llm_analyze q = Except.error e →
      ∃ d, process_query st q hist = Except.ok d ∧ d.success = true ∧
        d.query_type = some (rule_based_analyze_query q).qtype) := by
  constructor
  · exact ⟨_, rfl, Or.inl rfl⟩
  · intro e he
    have hqi : analyze_query st q = rule_based_analyze_query q := by
      unfold analyze_query
      rw [he]
    refine ⟨_, rfl, rfl, ?_⟩
    simp only [process_query, process_query_body, hqi]

/-- C6 witness: with a raising classifier stub and benign stores, the call
returns a success dict typed by the rule-based classification. -/
theorem process_query_total_witness :
    ∃ d, process_query failing_llm_stubs ( "hi".data ) [] = Except.ok d ∧ d.success = true ∧
      d.query_type = some (rule_based_analyze_query ( "hi".data )).qtype :=
  (process_query_total failing_llm_stubs ( "hi".data ) []).2 ( "timeout".data ) rfl

/-- C8: the rule-based classifier always yields an intent from the
five-value set, duplicate-free key terms, and defaults to part_search when
none of the four classification rules fires. -/
theorem rule_based_shape (q : Str) :
    (rule_based_analyze_query q).key_terms.Nodup ∧
    ((rule_based_analyze_query q).qtype = Intent.specific_part ∨
     (rule_based_analyze_query q).qtype = Intent.compatibility ∨
     (rule_based_analyze_query q).qtype = Intent.troubleshooting ∨
     (rule_based_analyze_query q).qtype = Intent.educational ∨
     (rule_based_analyze_query q).qtype = Intent.part_search) ∧
    ((containsAny (lowerStr q) wordsSpecific && re_search_part_number q) = false →
     containsAny (lowerStr q) wordsCompat = false →
     containsAny (lowerStr q) wordsTrouble = false →
     containsAny (lowerStr q) wordsEducational = false →
     (rule_based_analyze_query q).qtype = Intent.part_search) := by
  refine ⟨?_, ?_, ?_⟩
  · simp only [rule_based_analyze_query]
    exact List.nodup_dedup _
  · simp only [rule_based_analyze_query]
    split_ifs <;> simp
  · intro h1 h2 h3 h4
    simp only [rule_based_analyze_query, h1, h2, h3, h4, Bool.false_eq_true, if_false]

/-- C8 witness: on the query "hello" no rule fires and the classifier
returns part_search with duplicate-free key terms. -/
theorem rule_based_shape_witness :
    (rule_based_analyze_query ( "hello".data )).key_terms.Nodup ∧
    (rule_based_analyze_query ( "hello".data )).qtype = Intent.part_search :=
  ⟨(rule_based_shape ( "hello".data )).1,
   (rule_based_shape ( "hello".data )).2.2 (by decide) (by decide) (by decide) (by decide)⟩

/-- Helper: when every point lookup succeeds, the lookup loop issues one
call per key term matching `re.match(r'PS\d+', ...)` and collects the found
records in order. -/
theorem lookupLoop_ok (db : ReadDB)
    (hok : ∀ t, ∃ r, db.get_part_by_number t = Except.ok r) :
    ∀ ts, lookupLoop db ts =
      ((ts.filter re_match_PSdigits).filterMap (fun t => okJoin (db.get_part_by_number t)),
       (ts.filter re_match_PSdigits).map StoreCall.getPart) := by
  intro ts
  induction ts with
  | nil => rfl
  | cons t ts ih =>
    by_cases hm : re_match_PSdigits t = true
    · obtain ⟨r, hr⟩ := hok t
      cases r with
      | none => simp [lookupLoop, hm, hr, ih, okJoin]
      | some p => simp [lookupLoop, hm, hr, ih, okJoin]
    · simp [lookupLoop, hm, ih, List.filter_cons]

/-- C3 counterexample: `WP123` is part-number-shaped in the claim's sense
(two uppercase letters + digits), the intent is specific_part with a
non-empty key-term set, yet the fetch issues no point lookup at all (the
code only matches `re.match(r'PS\d+', term)`). -/
theorem specific_part_lookups_counterexample :
    spec_part_number_shaped ( "WP123".data ) = true ∧
    qiEx3.qtype = Intent.specific_part ∧ qiEx3.key_terms ≠ [] ∧
    (fetch_primary_data qiEx3 trivial_db).2 = [] ∧
    (fetch_primary_data qiEx3 trivial_db).1.parts = [] := by decide

/-- C3 amended: for intent specific_part with non-empty key terms and a
non-raising store, the fetch issues exactly one `get_part_by_number` per
key term matching `re.match(r'PS\d+', term)` — the term must begin with
`PS` followed by a digit; trailing characters are allowed — in key-term
order, no lookup for any other term, and appends exactly the found
records. -/
theorem specific_part_lookups_amended (qi : QueryInfo) (db : ReadDB)
    (hty : qi.qtype = Intent.specific_part) (hne : qi.key_terms ≠ [])
    (hok : ∀ t, ∃ r, db.get_part_by_number t = Except.ok r) :
    (fetch_primary_data qi db).2 =
      (qi.key_terms.filter re_match_PSdigits).map StoreCall.getPart ∧
    (fetch_primary_data qi db).1.parts =
      (qi.key_terms.filter re_match_PSdigits).filterMap
        (fun t => okJoin (db.get_part_by_number t)) := by
  have hcond : qi.qtype = Intent.specific_part ∧ qi.key_terms ≠ [] := ⟨hty, hne⟩
  simp only [fetch_primary_data]
  rw [if_pos hcond, lookupLoop_ok db hok qi.key_terms]
  exact ⟨rfl, rfl⟩

/-- C3 amended witness: with key terms `PS1`, `xx` and an all-succeeding
store, exactly the lookup for `PS1` is issued. -/
theorem specific_part_lookups_amended_witness :
    (fetch_primary_data qiW3 trivial_db).2 = [ StoreCall.getPart ( "PS1".data ) ] ∧
    (fetch_primary_data qiW3 trivial_db).1.parts = [] := by
  have h := specific_part_lookups_amended qiW3 trivial_db rfl (by decide)
    (fun t => ⟨none, rfl⟩)
  exact ⟨h.1.trans (by decide), h.2.trans (by decide)⟩

/-- C4 counterexample: "model 123" contains the token `123` (part-number
shaped per the claim's "optional PS prefix + digits") and the word "model",
yet the rule-based classifier returns compatibility, not specific_part (the
code's regex requires a letter-led token). -/
theorem rule_based_specific_part_counterexample :
    containsAny (lowerStr ( "model 123".data )) wordsSpecific = true ∧
    (whitespaceTokens ( "model 123".data )).any spec_part_number_shaped = true ∧
    (rule_based_analyze_query ( "model 123".data )).qtype = Intent.compatibility := by decide

/-- C4 amended: whenever the lower-cased query contains one of "part
number" / "ps" / "model" as a substring and the query matches
`re.search(r'\b[A-Z]{2}\d+\b|\bPS\d+\b', ...)` (a `PS`-prefixed or
two-uppercase-letter-led digit token; bare digit runs do not qualify), the
rule-based classifier returns specific_part. -/
theorem rule_based_specific_part (q : Str)
    (hw : containsAny (lowerStr q) wordsSpecific = true)
    (hr : re_search_part_number q = true) :
    (rule_based_analyze_query q).qtype = Intent.specific_part := by
  simp [rule_based_analyze_query, hw, hr]

/-- C4 amended witness: the query "PS1 ps" is classified specific_part. -/
theorem rule_based_specific_part_witness :
    (rule_based_analyze_query ( "PS1 ps".data )).qtype = Intent.specific_part :=
  rule_based_specific_part ( "PS1 ps".data ) (by decide) (by decide)

/-- C5 counterexample: with two primary articles (truncated primary total
2 ≥ 2), no primary parts or repairs, and one available supplementary item,
the claim says no supplementary item may appear, but the code includes it
(its gate counts only parts + repairs). -/
theorem supplementary_inclusion_counterexample :
    ¬ ((cEx5.primary_parts.take 5).length + (cEx5.primary_repairs.take 3).length +
        (cEx5.primary_blogs.take 2).length < 2) ∧
    included_additional_parts cEx5 ≠ [] ∧
    additionalSection cEx5 ≠ [] := by decide

/-- C5 amended: supplementary items are included iff the primary parts +
repairs count (articles are not counted) is strictly below 2 and at least
one supplementary part exists; at most 2 are included, under the
additional-context header distinct from the primary sections. -/
theorem supplementary_inclusion_amended (c : CombinedData) :
    (included_additional_parts c ≠ [] ↔
      (c.primary_parts.length + c.primary_repairs.length < 2 ∧ c.additional_parts ≠ [])) ∧
    (included_additional_parts c).length ≤ 2 ∧
    (included_additional_parts c ≠ [] →
      additionalSection c =
        "\n=== ADDITIONAL CONTEXT ===".data ::
          (included_additional_parts c).map renderAdditional) := by
  by_cases h : c.primary_parts.length + c.primary_repairs.length < 2
  · unfold included_additional_parts additionalSection
    rw [if_pos h, if_pos h]
    refine ⟨⟨fun hne => ⟨h, fun h0 => hne (by simp [h0])⟩, ?_⟩, ?_, ?_⟩
    · rintro ⟨-, hne⟩
      cases hl : c.additional_parts with
      | nil => exact absurd hl hne
      | cons a l => simp [hl]
    · simp [List.length_take]
    · intro hne
      cases hl : c.additional_parts with
      | nil => rw [hl] at hne; simp at hne
      | cons a l => simp [hl]
  · unfold included_additional_parts additionalSection
    rw [if_neg h, if_neg h]
    refine ⟨?_, ?_, ?_⟩ <;> simp [h]

/-- C5 amended witness: with nothing primary and one supplementary part,
the item is included under the additional-context header. -/
theorem supplementary_inclusion_amended_witness :
    included_additional_parts cW5 ≠ [] ∧
    additionalSection cW5 =
      "\n=== ADDITIONAL CONTEXT ===".data ::
        (included_additional_parts cW5).map renderAdditional := by
  have h := supplementary_inclusion_amended cW5
  have hne : included_additional_parts cW5 ≠ [] := h.1.mpr ⟨by decide, by decide⟩
  exact ⟨hne, h.2.2 hne⟩

/-- Helper: when the qualifying key terms split as `ts1 ++ t :: ts2` with
all lookups on `ts1` succeeding and the lookup on `t` raising, the loop
returns the records found on `ts1` and stops: `t`'s call is issued, none of
`ts2` is looked up. -/
theorem lookupLoop_abort (db : ReadDB) (e : Err) :
    ∀ ts ts1 t ts2,
      ts.filter re_match_PSdigits = ts1 ++ t :: ts2 →
      (∀ u ∈ ts1, ∃ r, db.get_part_by_number u = Except.ok r) →
      db.get_part_by_number t = Except.error e →
      lookupLoop db ts =
        (ts1.filterMap (fun u => okJoin (db.get_part_by_number u)),
         (ts1 ++ [ t ]).map StoreCall.getPart) := by
  intro ts
  induction ts with
  | nil =>
    intro ts1 t ts2 hsplit _ _
    exact absurd hsplit (by simp)
  | cons u us ih =>
    intro ts1 t ts2 hsplit h1 ht
    by_cases hm : re_match_PSdigits u = true
    · rw [List.filter_cons_of_pos hm] at hsplit
      cases ts1 with
      | nil =>
        simp only [List.nil_append] at hsplit
        obtain ⟨rfl, -⟩ : u = t ∧ us.filter re_match_PSdigits = ts2 := by
          exact ⟨(List.cons.injEq _ _ _ _ ▸ hsplit).1, (List.cons.injEq _ _ _ _ ▸ hsplit).2⟩
        simp [lookupLoop, hm, ht]
      | cons v vs =>
        rw [List.cons_append] at hsplit
        obtain ⟨rfl, htail⟩ : u = v ∧ us.filter re_match_PSdigits = vs ++ t :: ts2 := by
          exact ⟨(List.cons.injEq _ _ _ _ ▸ hsplit).1, (List.cons.injEq _ _ _ _ ▸ hsplit).2⟩
        obtain ⟨r, hr⟩ := h1 u (by simp)
        have ihh := ih vs t ts2 htail (fun w hw => h1 w (by simp [hw])) ht
        cases r with
        | none => simp [lookupLoop, hm, hr, ihh, okJoin]
        | some p => simp [lookupLoop, hm, hr, ihh, okJoin]
    · rw [List.filter_cons_of_neg hm] at hsplit
      simp only [lookupLoop, hm]
      exact ih ts1 t ts2 hsplit h1 ht

/-- C7 counterexample: with key terms `PS1`, `PS2`, a store that finds a
part for `PS1` and raises on `PS2` still contributes that one record — the
fetch layer keeps partial results rather than substituting an empty bundle
for the failing source. -/
theorem fetch_error_keeps_partial_counterexample :
    dbEx7.get_part_by_number ( "PS2".data ) = Except.error ( "boom".data ) ∧
    (fetch_primary_data qiEx7 dbEx7).2 =
      [ StoreCall.getPart ( "PS1".data ), StoreCall.getPart ( "PS2".data ) ] ∧
    (fetch_primary_data qiEx7 dbEx7).1.parts = [ partA ] :=
  ⟨rfl, by decide, by decide⟩

/-- Helper: the compatibility loop analogue of `lookupLoop_abort`: results
gathered on `ts1` are kept, `t`'s raising call is issued and contributes
nothing, `ts2` is never looked up. -/
theorem compatLoop_abort (db : ReadDB) (a : Option Appliance) (e : Err) :
    ∀ ts ts1 t ts2,
      ts.filter re_match_model_anchor = ts1 ++ t :: ts2 →
      (∀ u ∈ ts1, ∃ r, db.search_compatible_parts u a = Except.ok r) →
      db.search_compatible_parts t a = Except.error e →
      compatLoop db a ts =
        ((ts1.map (fun u => okList (db.search_compatible_parts u a))).flatten,
         (ts1 ++ [ t ]).map (fun u => StoreCall.searchCompatible u a)) := by
  intro ts
  induction ts with
  | nil =>
    intro ts1 t ts2 hsplit _ _
    exact absurd hsplit (by simp)
  | cons u us ih =>
    intro ts1 t ts2 hsplit h1 ht
    by_cases hm : re_match_model_anchor u = true
    · rw [List.filter_cons_of_pos hm] at hsplit
      cases ts1 with
      | nil =>
        simp only [List.nil_append] at hsplit
        obtain ⟨rfl, -⟩ : u = t ∧ us.filter re_match_model_anchor = ts2 :=
          ⟨(List.cons.injEq _ _ _ _ ▸ hsplit).1, (List.cons.injEq _ _ _ _ ▸ hsplit).2⟩
        simp [compatLoop, hm, ht]
      | cons v vs =>
        rw [List.cons_append] at hsplit
        obtain ⟨rfl, htail⟩ : u = v ∧ us.filter re_match_model_anchor = vs ++ t :: ts2 :=
          ⟨(List.cons.injEq _ _ _ _ ▸ hsplit).1, (List.cons.injEq _ _ _ _ ▸ hsplit).2⟩
        obtain ⟨r, hr⟩ := h1 u (by simp)
        have ihh := ih vs t ts2 htail (fun w hw => h1 w (by simp [hw])) ht
        simp [compatLoop, hm, hr, ihh, okList]
    · rw [List.filter_cons_of_neg hm] at hsplit
      simp only [compatLoop, hm]
      exact ih ts1 t ts2 hsplit h1 ht

/-- C7 amended: a raising store call in any fetch strategy is caught, never
propagated.  Conjunct by conjunct: (1) specific_part and (2) compatibility
keep the records found before the raising lookup, issue the raising call,
and skip later ones; (3) a raising troubleshooting repair search yields an
empty bundle, (4) a raising troubleshooting part search keeps the repairs
already fetched; (5) a raising educational blog search yields an empty
bundle, (6) a raising lookup after a successful blog search keeps the
blogs and the parts found before it; (7) a raising general part search
yields an empty bundle; (8)/(9) a raising vector query yields an empty
supplementary bundle for either intent group; (10) for every stub
behavior, query processing still returns a success dict built from a fused
context. -/
theorem fetch_error_keeps_partial :
    (∀ (qi : QueryInfo) (db : ReadDB) (ts1 : List Str) (t : Str) (ts2 : List Str) (e : Err),
      qi.qtype = Intent.specific_part → qi.key_terms ≠ [] →
      qi.key_terms.filter re_match_PSdigits = ts1 ++ t :: ts2 →
      (∀ u ∈ ts1, ∃ r, db.get_part_by_number u = Except.ok r) →
      db.get_part_by_number t = Except.error e →
      (fetch_primary_data qi db).1.parts =
        ts1.filterMap (fun u => okJoin (db.get_part_by_number u)) ∧
      (fetch_primary_data qi db).2 = (ts1 ++ [ t ]).map StoreCall.getPart) ∧
    (∀ (qi : QueryInfo) (db : ReadDB) (ts1 : List Str) (t : Str) (ts2 : List Str) (e : Err),
      qi.qtype = Intent.compatibility → qi.key_terms ≠ [] →
      qi.key_terms.filter re_match_model_anchor = ts1 ++ t :: ts2 →
      (∀ u ∈ ts1, ∃ r, db.search_compatible_parts u qi.appliance_type = Except.ok r) →
      db.search_compatible_parts t qi.appliance_type = Except.error e →
      (fetch_primary_data qi db).1.parts =
        (ts1.map (fun u => okList (db.search_compatible_parts u qi.appliance_type))).flatten ∧
      (fetch_primary_data qi db).2 =
        (ts1 ++ [ t ]).map (fun u => StoreCall.searchCompatible u qi.appliance_type)) ∧
    (∀ (qi : QueryInfo) (db : ReadDB) (e : Err),
      qi.qtype = Intent.troubleshooting →
      db.search_repairs (primary_search_query qi) qi.appliance_type 5 = Except.error e →
      (fetch_primary_data qi db).1 = ⟨[], [], []⟩ ∧
      (fetch_primary_data qi db).2 =
        [ StoreCall.searchRepairs (primary_search_query qi) qi.appliance_type 5 ]) ∧
    (∀ (qi : QueryInfo) (db : ReadDB) (rs : List RepairRec) (e : Err),
      qi.qtype = Intent.troubleshooting →
      db.search_repairs (primary_search_query qi) qi.appliance_type 5 = Except.ok rs →
      db.search_parts (primary_search_query qi) 5
          { brand := none, category := categoryFilter qi.appliance_type } = Except.error e →
      (fetch_primary_data qi db).1 = ⟨[], rs, []⟩) ∧
    (∀ (qi : QueryInfo) (db : ReadDB) (e : Err),
      qi.qtype = Intent.educational →
      db.search_blogs (primary_search_query qi) 3 = Except.error e →
      (fetch_primary_data qi db).1 = ⟨[], [], []⟩ ∧
      (fetch_primary_data qi db).2 = [ StoreCall.searchBlogs (primary_search_query qi) 3 ]) ∧
    (∀ (qi : QueryInfo) (db : ReadDB) (bs : List BlogRec) (ts1 : List Str) (t : Str)
        (ts2 : List Str) (e : Err),
      qi.qtype = Intent.educational →
      db.search_blogs (primary_search_query qi) 3 = Except.ok bs →
      qi.key_terms.filter re_match_PSdigits = ts1 ++ t :: ts2 →
      (∀ u ∈ ts1, ∃ r, db.get_part_by_number u = Except.ok r) →
      db.get_part_by_number t = Except.error e →
      (fetch_primary_data qi db).1 =
        ⟨ts1.filterMap (fun u => okJoin (db.get_part_by_number u)), [], bs⟩) ∧
    (∀ (qi : QueryInfo) (db : ReadDB) (e : Err),
      qi.qtype = Intent.part_search →
      db.search_parts (primary_search_query qi) 10
          { brand := firstBrand qi.key_terms, category := categoryFilter qi.appliance_type } =
        Except.error e →
      (fetch_primary_data qi db).1 = ⟨[], [], []⟩ ∧
      (fetch_primary_data qi db).2 =
        [ StoreCall.searchParts (primary_search_query qi) 10
            { brand := firstBrand qi.key_terms, category := categoryFilter qi.appliance_type } ]) ∧
    (∀ (qi : QueryInfo) (pd : PrimaryData) (vdb : VectorDB) (e : Err),
      pd.parts.length + pd.repairs.length + pd.blogs.length < 3 →
      (qi.qtype = Intent.part_search ∨ qi.qtype = Intent.specific_part ∨
        qi.qtype = Intent.compatibility) →
      vdb.parts_query qi.original_query 5 = Except.error e →
      (fetch_vector_context qi pd vdb).1 = ⟨[], [], []⟩) ∧
    (∀ (qi : QueryInfo) (pd : PrimaryData) (vdb : VectorDB) (e : Err),
      pd.parts.length + pd.repairs.length + pd.blogs.length < 3 →
      (qi.qtype = Intent.troubleshooting ∨ qi.qtype = Intent.educational) →
      vdb.repairs_query qi.original_query 3 = Except.error e →
      (fetch_vector_context qi pd vdb).1 = ⟨[], [], []⟩) ∧
    (∀ (st : Stubs) (q : Str) (hist : List Msg),
      ∃ d, process_query st q hist = Except.ok d ∧ d.success = true) := by
  refine ⟨?_, ?_, ?_, ?_, ?_, ?_, ?_, ?_, ?_, ?_⟩
  · intro qi db ts1 t ts2 e hty hne hsplit h1 ht
    have hcond : qi.qtype = Intent.specific_part ∧ qi.key_terms ≠ [] := ⟨hty, hne⟩
    simp only [fetch_primary_data]
    rw [if_pos hcond, lookupLoop_abort db e qi.key_terms ts1 t ts2 hsplit h1 ht]
    exact ⟨rfl, rfl⟩
  · intro qi db ts1 t ts2 e hty hne hsplit h1 ht
    have hcond : qi.qtype = Intent.compatibility ∧ qi.key_terms ≠ [] := ⟨hty, hne⟩
    simp only [fetch_primary_data]
    rw [if_neg (by simp [hty]), if_pos hcond,
      compatLoop_abort db qi.appliance_type e qi.key_terms ts1 t ts2 hsplit h1 ht]
    exact ⟨rfl, rfl⟩
  · intro qi db e hty hre
    simp only [fetch_primary_data]
    rw [if_neg (by simp [hty]), if_neg (by simp [hty]), if_pos hty, hre]
    exact ⟨rfl, rfl⟩
  · intro qi db rs e hty hre hpa
    simp only [fetch_primary_data]
    rw [if_neg (by simp [hty]), if_neg (by simp [hty]), if_pos hty, hre]
    dsimp only
    rw [hpa]
  · intro qi db e hty hbl
    simp only [fetch_primary_data]
    rw [if_neg (by simp [hty]), if_neg (by simp [hty]), if_neg (by simp [hty]),
      if_pos hty, hbl]
    exact ⟨rfl, rfl⟩
  · intro qi db bs ts1 t ts2 e hty hbl hsplit h1 ht
    simp only [fetch_primary_data]
    rw [if_neg (by simp [hty]), if_neg (by simp [hty]), if_neg (by simp [hty]),
      if_pos hty, hbl]
    dsimp only
    rw [lookupLoop_abort db e qi.key_terms ts1 t ts2 hsplit h1 ht]
  · intro qi db e hty hpa
    simp only [fetch_primary_data]
    rw [if_neg (by simp [hty]), if_neg (by simp [hty]), if_neg (by simp [hty]),
      if_neg (by simp [hty]), hpa]
    exact ⟨rfl, rfl⟩
  · intro qi pd vdb e htot hint hv
    simp only [fetch_vector_context]
    rw [if_pos htot, if_pos hint, hv,
      if_neg (by rcases hint with h | h | h <;> simp [h])]
  · intro qi pd vdb e htot hint hv
    simp only [fetch_vector_context]
    rw [if_pos htot, if_neg (by rcases hint with h | h <;> simp [h]), if_pos hint, hv]
  · intro st q hist
    exact ⟨_, rfl, rfl⟩

/-- C7 amended witness: concrete instantiations — the point-lookup strategy
with `PS1` succeeding and `PS2` raising keeps the one found part; a raising
vector query yields an empty supplementary bundle; and with every
collaborator raising, query processing still returns a success dict. -/
theorem fetch_error_keeps_partial_witness :
    ((fetch_primary_data qiEx7 dbEx7).1.parts = [ partA ] ∧
     (fetch_primary_data qiEx7 dbEx7).2 =
       [ StoreCall.getPart ( "PS1".data ), StoreCall.getPart ( "PS2".data ) ]) ∧
    (fetch_vector_context qiEx7 ⟨[], [], []⟩ vdbBoom).1 = ⟨[], [], []⟩ ∧
    (∃ d, process_query raising_stubs ( "hi".data ) [] = Except.ok d ∧
      d.success = true) := by
  refine ⟨?_, ?_, ?_⟩
  · have h := fetch_error_keeps_partial.1 qiEx7 dbEx7 [ "PS1".data ] ( "PS2".data ) []
      ( "boom".data ) rfl (by decide) (by decide)
      (by
        intro u hu
        simp only [List.mem_singleton] at hu
        subst hu
        exact ⟨some partA, rfl⟩)
      rfl
    exact ⟨h.1.trans (by decide), h.2.trans (by decide)⟩
  · exact fetch_error_keeps_partial.2.2.2.2.2.2.2.1 qiEx7 ⟨[], [], []⟩ vdbBoom
      ( "vboom".data ) (by decide) (Or.inr (Or.inl rfl)) rfl
  · exact fetch_error_keeps_partial.2.2.2.2.2.2.2.2.2 raising_stubs ( "hi".data ) []

/-- C9: the fused context is a pure function of the query and the stubbed
collaborator state: two agents with identical classifier, structured-store
and vector-store stubs (the generator may even differ) build the same fused
context for the same query, so two runs of the pipeline agree. -/
theorem pipeline_deterministic (st1 st2 : Stubs) (q : Str)
    (h1 : st1.llm_analyze = st2.llm_analyze) (h2 : st1.db = st2.db)
    (h3 : st1.vdb = st2.vdb) :
    fused_of st1 q = fused_of st2 q := by
  rcases st1 with ⟨l1, d1, v1, g1⟩
  rcases st2 with ⟨l2, d2, v2, g2⟩
  obtain rfl : l1 = l2 := h1
  obtain rfl : d1 = d2 := h2
  obtain rfl : v1 = v2 := h3
  rfl

/-- C9 witness: two stub records sharing classifier and stores but with
different generators produce the same fused context for a concrete query. -/
theorem pipeline_deterministic_witness :
    fused_of failing_llm_stubs ( "x".data ) = fused_of alt_gen_stubs ( "x".data ) :=
  pipeline_deterministic failing_llm_stubs alt_gen_stubs ( "x".data ) rfl rfl rfl

/-- C10: the context string handed to the generator is independent of the
supplementary repair results: changing `additional_repairs` arbitrarily
never changes the built context. -/
theorem context_ignores_additional_repairs (c : CombinedData) (r : List CtxItem) :
    build_context_string { c with additional_repairs := r } = build_context_string c := by
  rcases c with ⟨pp, pr, pb, ap, ar, ab, s⟩
  rfl

end PartSelect
